import Mathlib

/-!
Verification of the NAOM transaction-script engine.

The development shallowly embeds the three source files of the repository:
`src/script/lang.rs` (stack machine and `Script::interpret`),
`src/utils/script_utils.rs` (spend predicates and `tx_is_valid`) and
`src/utils/druid_utils.rs` (`druid_expectations_are_met`).

Conventions of the embedding:
* Rust `Vec` stacks are modelled as Lean lists with the TOP of the stack at
  the HEAD of the list (Rust pushes at the end of the vector; the list is the
  reverse of the vector, so `Vec::push` becomes `cons`, `Vec::pop` matches on
  the head and `Vec::last` is `List.head?`).
* Rust `usize` values are modelled as `Nat`; the checked 64-bit arithmetic of
  the opcode handlers is made explicit with the bound `USIZE_MAX = 2^64 - 1`.
* Rust `String` payloads are modelled as Lean `String`, with `String.length`
  standing for the byte length `str::len`.
* Fallible code returns `Option` (`none` = the handler returned `false`);
  a reachable Rust panic is a dedicated `TxCheck.panic` outcome.
* The crate modules that are not part of the given sources (the crypto
  collaborators, `interface_ops.rs`, `constants.rs` and the transaction
  primitives) are modelled from the specification, as marked on each
  definition; everything else is translated directly from the Rust sources.
-/

/-- Modelled from the spec: `constants.rs` is not among the sources; §5 fixes
`MAX_SCRIPT_SIZE = 10000`. -/
def MAX_SCRIPT_SIZE : Nat := 10000

/-- Modelled from the spec: §5 fixes `MAX_OPS_PER_SCRIPT = 201`. -/
def MAX_OPS_PER_SCRIPT : Nat := 201

/-- Modelled from the spec: §5 fixes `MAX_STACK_SIZE = 1000`. -/
def MAX_STACK_SIZE : Nat := 1000

/-- Modelled from the spec: §5 fixes `MAX_SCRIPT_ITEM_SIZE = 520`. -/
def MAX_SCRIPT_ITEM_SIZE : Nat := 520

/-- Modelled from the spec: §5 fixes `MAX_PUB_KEYS_PER_MULTISIG = 20`. -/
def MAX_PUB_KEYS_PER_MULTISIG : Nat := 20

/-- Modelled from the spec: §3 fixes `SIG_LEN = 64` (`ED25519_SIGNATURE_LEN`). -/
def ED25519_SIGNATURE_LEN : Nat := 64

/-- Modelled from the spec: §3 fixes `PK_LEN = 32` (`ED25519_PUBLIC_KEY_LEN`). -/
def ED25519_PUBLIC_KEY_LEN : Nat := 32

/-- Modelled from the spec: §3 assumes the machine word is 64 bits, so a
`Num` entry contributes `usize::BITS / 8 = 8` bytes to the script size. -/
def NUM_BYTE_LEN : Nat := 8

/-- Largest value of the 64-bit machine word `usize`; the checked arithmetic
of the opcode handlers fails beyond it. -/
def USIZE_MAX : Nat := 2 ^ 64 - 1

/-- Modelled from the spec: the opcode table of §4.2 (`OpCodes` lives in the
`script` module that is not among the sources). -/
inductive OpCodes where
  | OP_0 | OP_1 | OP_2 | OP_3 | OP_4 | OP_5 | OP_6 | OP_7 | OP_8
  | OP_9 | OP_10 | OP_11 | OP_12 | OP_13 | OP_14 | OP_15 | OP_16
  | OP_NOP | OP_IF | OP_NOTIF | OP_ELSE | OP_ENDIF | OP_VERIFY | OP_RETURN
  | OP_TOALTSTACK | OP_FROMALTSTACK | OP_2DROP | OP_2DUP | OP_3DUP
  | OP_2OVER | OP_2ROT | OP_2SWAP | OP_IFDUP | OP_DEPTH | OP_DROP | OP_DUP
  | OP_NIP | OP_OVER | OP_PICK | OP_ROLL | OP_ROT | OP_SWAP | OP_TUCK
  | OP_CAT | OP_SUBSTR | OP_LEFT | OP_RIGHT | OP_SIZE
  | OP_INVERT | OP_AND | OP_OR | OP_XOR | OP_EQUAL | OP_EQUALVERIFY
  | OP_1ADD | OP_1SUB | OP_2MUL | OP_2DIV | OP_NOT | OP_0NOTEQUAL
  | OP_ADD | OP_SUB | OP_MUL | OP_DIV | OP_MOD | OP_LSHIFT | OP_RSHIFT
  | OP_BOOLAND | OP_BOOLOR | OP_NUMEQUAL | OP_NUMEQUALVERIFY
  | OP_NUMNOTEQUAL | OP_LESSTHAN | OP_GREATERTHAN | OP_LESSTHANOREQUAL
  | OP_GREATERTHANOREQUAL | OP_MIN | OP_MAX | OP_WITHIN
  | OP_CREATE
  | OP_SHA3 | OP_HASH256 | OP_HASH256_V0 | OP_HASH256_TEMP
  | OP_CHECKSIG | OP_CHECKSIGVERIFY | OP_CHECKMULTISIG | OP_CHECKMULTISIGVERIFY
  deriving DecidableEq, Repr

/-- Modelled from the spec: an Ed25519 public key (32 opaque bytes); the
crypto collaborator is outside the sources, so only identity matters. -/
structure PublicKey where
  bytes : List Nat
  deriving DecidableEq, Repr

/-- Modelled from the spec: an Ed25519 signature (64 opaque bytes). -/
structure Signature where
  bytes : List Nat
  deriving DecidableEq, Repr

/-- Modelled from the spec: the tagged `StackEntry` sum type of §3 (defined in
the `script` module that is not among the sources). -/
inductive StackEntry where
  | Op (code : OpCodes)
  | Signature (sig : Signature)
  | PubKey (pk : PublicKey)
  | PubKeyHash (s : String)
  | Num (n : Nat)
  | Bytes (s : String)
  deriving DecidableEq, Repr

/-- Modelled from the spec: `OutPoint` = `(tx_hash, index)` (§3; the
`primitives` module is not among the sources). -/
structure OutPoint where
  t_hash : String
  n : Nat
  deriving DecidableEq, Repr

/-- Scripts are a sequence of stack entries (`src/script/lang.rs`). -/
structure Script where
  stack : List StackEntry
  deriving DecidableEq, Repr

/-- Modelled from the spec: `TxIn` = `(previous_out, script_signature)` (§3);
`previous_out` is optional in the source (`tx_in.previous_out.as_ref()`). -/
structure TxIn where
  previous_out : Option OutPoint
  script_signature : Script
  deriving DecidableEq, Repr

/-- Modelled from the spec: the `Asset` sum of §3 — `Token(amount)`,
`Receipt{amount, drs_tx_hash?, metadata?}` and `Data{bytes, amount}`. -/
inductive Asset where
  | Token (amount : Nat)
  | Receipt (amount : Nat) (drs_tx_hash : Option String) (metadata : Option String)
  | Data (data : List Nat) (amount : Nat)
  deriving DecidableEq, Repr

/-- Modelled from the spec: `TxOut` = `(value, script_public_key?)` (§3). -/
structure TxOut where
  value : Asset
  script_public_key : Option String
  deriving DecidableEq, Repr

/-- Modelled from the spec: a DDE expectation `{from, to, asset}` (§3); the
Rust field names `from`/`to` are Lean keywords, hence `fromAddr`/`toAddr`. -/
structure DruidExpectation where
  fromAddr : String
  toAddr : String
  asset : Asset
  deriving DecidableEq, Repr

/-- Modelled from the spec: `druid_info` = `{druid, participants,
expectations}` (§3, `DdeValues` in the `primitives` module). -/
structure DdeValues where
  druid : String
  participants : Nat
  expectations : List DruidExpectation
  deriving DecidableEq, Repr

/-- Modelled from the spec: a transaction `{inputs, outputs, druid_info?}`
(§3); only the fields the verified core reads are carried. -/
structure Transaction where
  inputs : List TxIn
  outputs : List TxOut
  druid_info : Option DdeValues
  deriving DecidableEq, Repr

/-- Modelled from the spec: the collaborator contract of §6. The crypto
primitives (Ed25519 verify, SHA3-256, address construction, canonical
serialization) are outside the verified core, so the development is
parametric in a `CryptoModel`; every theorem below holds for all models. -/
structure CryptoModel where
  /-- `sign::verify_detached` over the bytes of a `Bytes`-hex message. -/
  verify : PublicKey → String → Signature → Bool
  /-- `hex(sha3_256(raw bytes of the entry))`, as `op_sha3` pushes it. -/
  sha3_hex : StackEntry → String
  /-- `construct_address(pk)` — the current address encoding. -/
  address : PublicKey → String
  /-- `construct_address_v0(pk)` — the V0 legacy address encoding. -/
  address_v0 : PublicKey → String
  /-- `construct_address_temp(pk)` — the TEMP legacy address encoding. -/
  address_temp : PublicKey → String
  /-- `construct_p2sh_address(script)` — address of a serialized script. -/
  p2sh_address : Script → String
  /-- `construct_tx_in_signable_hash(outpoint)` — canonical outpoint hash. -/
  signable_hash : OutPoint → String
  /-- the DRS hash an on-spent `Receipt` is canonicalized to by
  `Asset::with_fixed_hash` when its `drs_tx_hash` is absent. -/
  fixed_hash : OutPoint → String
  /-- `hex(sha3_256(serialize(tx.inputs)))` — the DDE sender fingerprint. -/
  txins_hash : List TxIn → String

/-- Stack for script execution (`src/script/lang.rs`, `struct Stack`); the
head of each list is the top of the corresponding Rust `Vec`. -/
structure Stack where
  main_stack : List StackEntry
  alt_stack : List StackEntry
  deriving DecidableEq, Repr

/-- `Stack::new` — a fresh pair of empty stacks. -/
def Stack.new : Stack := ⟨[], []⟩

/-- `Stack::is_valid` — the combined size of main and alt stacks may not
exceed `MAX_STACK_SIZE`. -/
def Stack.is_valid (s : Stack) : Bool :=
  if s.main_stack.length + s.alt_stack.length > MAX_STACK_SIZE then false
  else true

/-- `Stack::last` — the top of the main stack, if any. -/
def Stack.last (s : Stack) : Option StackEntry :=
  s.main_stack.head?

/-- `Stack::push` — rejects `Op` entries and oversized `Bytes`/`PubKeyHash`
payloads, then pushes onto the main stack. -/
def Stack.push (s : Stack) (stack_entry : StackEntry) : Option Stack :=
  match stack_entry with
  | StackEntry.Op _ => none
  | StackEntry.PubKeyHash p =>
    if p.length > MAX_SCRIPT_ITEM_SIZE then none
    else some { s with main_stack := StackEntry.PubKeyHash p :: s.main_stack }
  | StackEntry.Bytes b =>
    if b.length > MAX_SCRIPT_ITEM_SIZE then none
    else some { s with main_stack := StackEntry.Bytes b :: s.main_stack }
  | e => some { s with main_stack := e :: s.main_stack }

/-- Stack for conditionals (`src/script/lang.rs`, `struct ConditionStack`):
a depth counter plus the least index holding a false condition. -/
structure ConditionStack where
  size : Nat
  first_false_pos : Option Nat
  deriving DecidableEq, Repr

/-- `ConditionStack::new`. -/
def ConditionStack.new : ConditionStack := ⟨0, none⟩

/-- `ConditionStack::all_true`. -/
def ConditionStack.all_true (c : ConditionStack) : Bool :=
  c.first_false_pos.isNone

/-- `ConditionStack::is_empty`. -/
def ConditionStack.is_empty (c : ConditionStack) : Bool :=
  c.size == 0

/-- `ConditionStack::push`. -/
def ConditionStack.push (c : ConditionStack) (cond : Bool) : ConditionStack :=
  { size := c.size + 1
    first_false_pos :=
      if c.first_false_pos.isNone && !cond then some c.size
      else c.first_false_pos }

/-- `ConditionStack::pop` — the source asserts non-emptiness (a panic on an
empty condition stack), modelled as `none`. -/
def ConditionStack.pop (c : ConditionStack) : Option ConditionStack :=
  if c.size = 0 then none
  else
    some { size := c.size - 1
           first_false_pos :=
             match c.first_false_pos with
             | some pos => if pos = c.size - 1 then none else some pos
             | none => none }

/-- `ConditionStack::toggle` — flips the truth of the top condition; the
source asserts non-emptiness, modelled as `none`. -/
def ConditionStack.toggle (c : ConditionStack) : Option ConditionStack :=
  if c.size = 0 then none
  else
    some { size := c.size
           first_false_pos :=
             match c.first_false_pos with
             | some pos => if pos = c.size - 1 then none else some pos
             | none => some (c.size - 1) }

/-!
Opcode handlers. `interface_ops.rs` is not among the sources; each handler is
modelled from the specification (§4.2) and from the unit tests of
`src/utils/script_utils.rs`, which exercise every handler directly. A handler
maps a stack to `none` when the Rust function returns `false`.
-/

/-- Modelled from the spec: `op_0` pushes `Num(0)` (`interface_ops.rs`). -/
def op_0 (s : Stack) : Option Stack := s.push (StackEntry.Num 0)

/-- Modelled from the spec: `op_1` pushes `Num(1)`. -/
def op_1 (s : Stack) : Option Stack := s.push (StackEntry.Num 1)

/-- Modelled from the spec: `op_2` pushes `Num(2)`. -/
def op_2 (s : Stack) : Option Stack := s.push (StackEntry.Num 2)

/-- Modelled from the spec: `op_3` pushes `Num(3)`. -/
def op_3 (s : Stack) : Option Stack := s.push (StackEntry.Num 3)

/-- Modelled from the spec: `op_4` pushes `Num(4)`. -/
def op_4 (s : Stack) : Option Stack := s.push (StackEntry.Num 4)

/-- Modelled from the spec: `op_5` pushes `Num(5)`. -/
def op_5 (s : Stack) : Option Stack := s.push (StackEntry.Num 5)

/-- Modelled from the spec: `op_6` pushes `Num(6)`. -/
def op_6 (s : Stack) : Option Stack := s.push (StackEntry.Num 6)

/-- Modelled from the spec: `op_7` pushes `Num(7)`. -/
def op_7 (s : Stack) : Option Stack := s.push (StackEntry.Num 7)

/-- Modelled from the spec: `op_8` pushes `Num(8)`. -/
def op_8 (s : Stack) : Option Stack := s.push (StackEntry.Num 8)

/-- Modelled from the spec: `op_9` pushes `Num(9)`. -/
def op_9 (s : Stack) : Option Stack := s.push (StackEntry.Num 9)

/-- Modelled from the spec: `op_10` pushes `Num(10)`. -/
def op_10 (s : Stack) : Option Stack := s.push (StackEntry.Num 10)

/-- Modelled from the spec: `op_11` pushes `Num(11)`. -/
def op_11 (s : Stack) : Option Stack := s.push (StackEntry.Num 11)

/-- Modelled from the spec: `op_12` pushes `Num(12)`. -/
def op_12 (s : Stack) : Option Stack := s.push (StackEntry.Num 12)

/-- Modelled from the spec: `op_13` pushes `Num(13)`. -/
def op_13 (s : Stack) : Option Stack := s.push (StackEntry.Num 13)

/-- Modelled from the spec: `op_14` pushes `Num(14)`. -/
def op_14 (s : Stack) : Option Stack := s.push (StackEntry.Num 14)

/-- Modelled from the spec: `op_15` pushes `Num(15)`. -/
def op_15 (s : Stack) : Option Stack := s.push (StackEntry.Num 15)

/-- Modelled from the spec: `op_16` pushes `Num(16)`. -/
def op_16 (s : Stack) : Option Stack := s.push (StackEntry.Num 16)

/-- Modelled from the spec: `op_nop` does nothing. -/
def op_nop (s : Stack) : Option Stack := some s

/-- Modelled from the spec: `op_verify` pops the top entry and fails unless
it is a non-zero `Num`. -/
def op_verify (s : Stack) : Option Stack :=
  match s.main_stack with
  | StackEntry.Num n :: rest =>
    if n = 0 then none else some { s with main_stack := rest }
  | _ => none

/-- Modelled from the spec: `op_return` always fails. -/
def op_return (_s : Stack) : Option Stack := none

/-- Modelled from the spec: `op_toaltstack` moves the top of main to alt. -/
def op_toaltstack (s : Stack) : Option Stack :=
  match s.main_stack with
  | x :: rest => some ⟨rest, x :: s.alt_stack⟩
  | [] => none

/-- Modelled from the spec: `op_fromaltstack` moves the top of alt to main. -/
def op_fromaltstack (s : Stack) : Option Stack :=
  match s.alt_stack with
  | x :: rest => some ⟨x :: s.main_stack, rest⟩
  | [] => none

/-- Modelled from the spec: `op_2drop` drops the top two entries. -/
def op_2drop (s : Stack) : Option Stack :=
  match s.main_stack with
  | _ :: _ :: rest => some { s with main_stack := rest }
  | _ => none

/-- Modelled from the spec: `op_2dup` duplicates the top two entries. -/
def op_2dup (s : Stack) : Option Stack :=
  match s.main_stack with
  | a :: b :: rest => some { s with main_stack := a :: b :: a :: b :: rest }
  | _ => none

/-- Modelled from the spec: `op_3dup` duplicates the top three entries. -/
def op_3dup (s : Stack) : Option Stack :=
  match s.main_stack with
  | a :: b :: c :: rest =>
    some { s with main_stack := a :: b :: c :: a :: b :: c :: rest }
  | _ => none

/-- Modelled from the spec: `op_2over` copies the third and fourth entries
from the top onto the top. -/
def op_2over (s : Stack) : Option Stack :=
  match s.main_stack with
  | a :: b :: c :: d :: rest =>
    some { s with main_stack := c :: d :: a :: b :: c :: d :: rest }
  | _ => none

/-- Modelled from the spec: `op_2rot` rotates the third pair from the top to
the top. -/
def op_2rot (s : Stack) : Option Stack :=
  match s.main_stack with
  | a :: b :: c :: d :: e :: f :: rest =>
    some { s with main_stack := e :: f :: a :: b :: c :: d :: rest }
  | _ => none

/-- Modelled from the spec: `op_2swap` swaps the top two pairs. -/
def op_2swap (s : Stack) : Option Stack :=
  match s.main_stack with
  | a :: b :: c :: d :: rest =>
    some { s with main_stack := c :: d :: a :: b :: rest }
  | _ => none

/-- Modelled from the spec: `op_ifdup` duplicates the top entry unless it is
`Num(0)`. -/
def op_ifdup (s : Stack) : Option Stack :=
  match s.main_stack with
  | x :: rest =>
    if x = StackEntry.Num 0 then some s
    else some { s with main_stack := x :: x :: rest }
  | [] => none

/-- Modelled from the spec: `op_depth` pushes the size of the main stack. -/
def op_depth (s : Stack) : Option Stack :=
  s.push (StackEntry.Num s.main_stack.length)

/-- Modelled from the spec: `op_drop` drops the top entry. -/
def op_drop (s : Stack) : Option Stack :=
  match s.main_stack with
  | _ :: rest => some { s with main_stack := rest }
  | [] => none

/-- Modelled from the spec: `op_dup` duplicates the top entry. -/
def op_dup (s : Stack) : Option Stack :=
  match s.main_stack with
  | x :: rest => some { s with main_stack := x :: x :: rest }
  | [] => none

/-- Modelled from the spec: `op_nip` removes the second entry from the top. -/
def op_nip (s : Stack) : Option Stack :=
  match s.main_stack with
  | a :: _ :: rest => some { s with main_stack := a :: rest }
  | _ => none

/-- Modelled from the spec: `op_over` copies the second entry onto the top. -/
def op_over (s : Stack) : Option Stack :=
  match s.main_stack with
  | a :: b :: rest => some { s with main_stack := b :: a :: b :: rest }
  | _ => none

/-- Modelled from the spec: `op_pick` pops `Num(n)` and copies the `n`-th
entry from the top onto the top; fails when the index or type is wrong. -/
def op_pick (s : Stack) : Option Stack :=
  match s.main_stack with
  | StackEntry.Num n :: rest =>
    match rest.get? n with
    | some x => some { s with main_stack := x :: rest }
    | none => none
  | _ => none

/-- Modelled from the spec: `op_roll` pops `Num(n)` and moves the `n`-th
entry from the top onto the top. -/
def op_roll (s : Stack) : Option Stack :=
  match s.main_stack with
  | StackEntry.Num n :: rest =>
    match rest.get? n with
    | some x => some { s with main_stack := x :: rest.eraseIdx n }
    | none => none
  | _ => none

/-- Modelled from the spec: `op_rot` rotates the third entry to the top. -/
def op_rot (s : Stack) : Option Stack :=
  match s.main_stack with
  | a :: b :: c :: rest => some { s with main_stack := c :: a :: b :: rest }
  | _ => none

/-- Modelled from the spec: `op_swap` swaps the top two entries. -/
def op_swap (s : Stack) : Option Stack :=
  match s.main_stack with
  | a :: b :: rest => some { s with main_stack := b :: a :: rest }
  | _ => none

/-- Modelled from the spec: `op_tuck` copies the top entry below the second. -/
def op_tuck (s : Stack) : Option Stack :=
  match s.main_stack with
  | a :: b :: rest => some { s with main_stack := a :: b :: a :: rest }
  | _ => none

/-- Modelled from the spec: `op_size` pushes the length of the top `Bytes`
entry without consuming it; fails on any other entry type. -/
def op_size (s : Stack) : Option Stack :=
  match s.main_stack with
  | StackEntry.Bytes b :: _ => s.push (StackEntry.Num b.length)
  | _ => none

/-- Modelled from the spec: `op_equal` pops two entries and pushes `Num(1)`
when they are structurally equal, else `Num(0)`. -/
def op_equal (s : Stack) : Option Stack :=
  match s.main_stack with
  | a :: b :: rest =>
    Stack.push { s with main_stack := rest }
      (if a = b then StackEntry.Num 1 else StackEntry.Num 0)
  | _ => none

/-- Modelled from the spec: `op_equalverify` = `op_equal` then `op_verify`. -/
def op_equalverify (s : Stack) : Option Stack :=
  match s.main_stack with
  | a :: b :: rest => if a = b then some { s with main_stack := rest } else none
  | _ => none

/-- Modelled from the spec: `op_1add` — checked increment of the top `Num`. -/
def op_1add (s : Stack) : Option Stack :=
  match s.main_stack with
  | StackEntry.Num n :: rest =>
    if n + 1 > USIZE_MAX then none
    else some { s with main_stack := StackEntry.Num (n + 1) :: rest }
  | _ => none

/-- Modelled from the spec: `op_1sub` — checked decrement of the top `Num`. -/
def op_1sub (s : Stack) : Option Stack :=
  match s.main_stack with
  | StackEntry.Num n :: rest =>
    if n = 0 then none
    else some { s with main_stack := StackEntry.Num (n - 1) :: rest }
  | _ => none

/-- Modelled from the spec: `op_not` — pushes `Num(1)` iff the top `Num` is
zero. -/
def op_not (s : Stack) : Option Stack :=
  match s.main_stack with
  | StackEntry.Num n :: rest =>
    some { s with main_stack :=
      (if n = 0 then StackEntry.Num 1 else StackEntry.Num 0) :: rest }
  | _ => none

/-- Modelled from the spec: `op_0notequal` — pushes `Num(0)` iff the top
`Num` is zero. -/
def op_0notequal (s : Stack) : Option Stack :=
  match s.main_stack with
  | StackEntry.Num n :: rest =>
    some { s with main_stack :=
      (if n = 0 then StackEntry.Num 0 else StackEntry.Num 1) :: rest }
  | _ => none

/-- Modelled from the spec: `op_add` — checked addition of the top two
`Num` entries. -/
def op_add (s : Stack) : Option Stack :=
  match s.main_stack with
  | StackEntry.Num b :: StackEntry.Num a :: rest =>
    if a + b > USIZE_MAX then none
    else some { s with main_stack := StackEntry.Num (a + b) :: rest }
  | _ => none

/-- Modelled from the spec: `op_sub` — subtraction of the top `Num` from the
second; fails on underflow. -/
def op_sub (s : Stack) : Option Stack :=
  match s.main_stack with
  | StackEntry.Num b :: StackEntry.Num a :: rest =>
    if b > a then none
    else some { s with main_stack := StackEntry.Num (a - b) :: rest }
  | _ => none

/-- Modelled from the spec: `op_booland` of the top two `Num` entries. -/
def op_booland (s : Stack) : Option Stack :=
  match s.main_stack with
  | StackEntry.Num b :: StackEntry.Num a :: rest =>
    some { s with main_stack :=
      (if a ≠ 0 ∧ b ≠ 0 then StackEntry.Num 1 else StackEntry.Num 0) :: rest }
  | _ => none

/-- Modelled from the spec: `op_boolor` of the top two `Num` entries. -/
def op_boolor (s : Stack) : Option Stack :=
  match s.main_stack with
  | StackEntry.Num b :: StackEntry.Num a :: rest =>
    some { s with main_stack :=
      (if a ≠ 0 ∨ b ≠ 0 then StackEntry.Num 1 else StackEntry.Num 0) :: rest }
  | _ => none

/-- Modelled from the spec: `op_numequal` of the top two `Num` entries. -/
def op_numequal (s : Stack) : Option Stack :=
  match s.main_stack with
  | StackEntry.Num b :: StackEntry.Num a :: rest =>
    some { s with main_stack :=
      (if a = b then StackEntry.Num 1 else StackEntry.Num 0) :: rest }
  | _ => none

/-- Modelled from the spec: `op_numequalverify` = `op_numequal` then
`op_verify`. -/
def op_numequalverify (s : Stack) : Option Stack :=
  match s.main_stack with
  | StackEntry.Num b :: StackEntry.Num a :: rest =>
    if a = b then some { s with main_stack := rest } else none
  | _ => none

/-- Modelled from the spec: `op_numnotequal` of the top two `Num` entries. -/
def op_numnotequal (s : Stack) : Option Stack :=
  match s.main_stack with
  | StackEntry.Num b :: StackEntry.Num a :: rest =>
    some { s with main_stack :=
      (if a ≠ b then StackEntry.Num 1 else StackEntry.Num 0) :: rest }
  | _ => none

/-- Modelled from the spec: `op_lessthan` — second `Num` < top `Num`. -/
def op_lessthan (s : Stack) : Option Stack :=
  match s.main_stack with
  | StackEntry.Num b :: StackEntry.Num a :: rest =>
    some { s with main_stack :=
      (if a < b then StackEntry.Num 1 else StackEntry.Num 0) :: rest }
  | _ => none

/-- Modelled from the spec: `op_greaterthan` — second `Num` > top `Num`. -/
def op_greaterthan (s : Stack) : Option Stack :=
  match s.main_stack with
  | StackEntry.Num b :: StackEntry.Num a :: rest =>
    some { s with main_stack :=
      (if a > b then StackEntry.Num 1 else StackEntry.Num 0) :: rest }
  | _ => none

/-- Modelled from the spec: `op_lessthanorequal` — second `Num` ≤ top. -/
def op_lessthanorequal (s : Stack) : Option Stack :=
  match s.main_stack with
  | StackEntry.Num b :: StackEntry.Num a :: rest =>
    some { s with main_stack :=
      (if a ≤ b then StackEntry.Num 1 else StackEntry.Num 0) :: rest }
  | _ => none

/-- Modelled from the spec: `op_greaterthanorequal` — second `Num` ≥ top. -/
def op_greaterthanorequal (s : Stack) : Option Stack :=
  match s.main_stack with
  | StackEntry.Num b :: StackEntry.Num a :: rest =>
    some { s with main_stack :=
      (if a ≥ b then StackEntry.Num 1 else StackEntry.Num 0) :: rest }
  | _ => none

/-- Modelled from the spec: `op_min` of the top two `Num` entries. -/
def op_min (s : Stack) : Option Stack :=
  match s.main_stack with
  | StackEntry.Num b :: StackEntry.Num a :: rest =>
    some { s with main_stack := StackEntry.Num (min a b) :: rest }
  | _ => none

/-- Modelled from the spec: `op_max` of the top two `Num` entries. -/
def op_max (s : Stack) : Option Stack :=
  match s.main_stack with
  | StackEntry.Num b :: StackEntry.Num a :: rest =>
    some { s with main_stack := StackEntry.Num (max a b) :: rest }
  | _ => none

/-- Modelled from the spec: `op_within` — pops `max`, `min` and `x` and
pushes `Num(1)` iff `min ≤ x < max`. -/
def op_within (s : Stack) : Option Stack :=
  match s.main_stack with
  | StackEntry.Num c :: StackEntry.Num b :: StackEntry.Num a :: rest =>
    some { s with main_stack :=
      (if b ≤ a ∧ a < c then StackEntry.Num 1 else StackEntry.Num 0) :: rest }
  | _ => none

/-- Modelled from the spec: `op_sha3` pops a data entry (any type but `Num`
and `Op`) and pushes the hex SHA3-256 digest of its raw bytes as `Bytes`. -/
def op_sha3 (cm : CryptoModel) (s : Stack) : Option Stack :=
  match s.main_stack with
  | StackEntry.Bytes b :: rest =>
    Stack.push { s with main_stack := rest }
      (StackEntry.Bytes (cm.sha3_hex (StackEntry.Bytes b)))
  | StackEntry.Signature sg :: rest =>
    Stack.push { s with main_stack := rest }
      (StackEntry.Bytes (cm.sha3_hex (StackEntry.Signature sg)))
  | StackEntry.PubKey pk :: rest =>
    Stack.push { s with main_stack := rest }
      (StackEntry.Bytes (cm.sha3_hex (StackEntry.PubKey pk)))
  | StackEntry.PubKeyHash h :: rest =>
    Stack.push { s with main_stack := rest }
      (StackEntry.Bytes (cm.sha3_hex (StackEntry.PubKeyHash h)))
  | _ => none

/-- Modelled from the spec: `op_hash256` pops a `PubKey` and pushes the
current-encoding address as `PubKeyHash`. -/
def op_hash256 (cm : CryptoModel) (s : Stack) : Option Stack :=
  match s.main_stack with
  | StackEntry.PubKey pk :: rest =>
    Stack.push { s with main_stack := rest } (StackEntry.PubKeyHash (cm.address pk))
  | _ => none

/-- Modelled from the spec: `op_hash256_v0` pops a `PubKey` and pushes the
V0 legacy address as `PubKeyHash`. -/
def op_hash256_v0 (cm : CryptoModel) (s : Stack) : Option Stack :=
  match s.main_stack with
  | StackEntry.PubKey pk :: rest =>
    Stack.push { s with main_stack := rest } (StackEntry.PubKeyHash (cm.address_v0 pk))
  | _ => none

/-- Modelled from the spec: `op_hash256_temp` pops a `PubKey` and pushes the
TEMP legacy address as `PubKeyHash`. -/
def op_hash256_temp (cm : CryptoModel) (s : Stack) : Option Stack :=
  match s.main_stack with
  | StackEntry.PubKey pk :: rest =>
    Stack.push { s with main_stack := rest } (StackEntry.PubKeyHash (cm.address_temp pk))
  | _ => none

/-- Modelled from the spec: `op_checksig` pops `pk`, `sig` and `msg` and
pushes `Num(1)` on a valid Ed25519 signature, else `Num(0)`; fails only on a
missing or mistyped operand. -/
def op_checksig (cm : CryptoModel) (s : Stack) : Option Stack :=
  match s.main_stack with
  | StackEntry.PubKey pk :: StackEntry.Signature sg :: StackEntry.Bytes msg :: rest =>
    some { s with main_stack :=
      (if cm.verify pk msg sg then StackEntry.Num 1 else StackEntry.Num 0) :: rest }
  | _ => none

/-- Modelled from the spec: `op_checksigverify` = `op_checksig` then
`op_verify`. -/
def op_checksigverify (cm : CryptoModel) (s : Stack) : Option Stack :=
  match s.main_stack with
  | StackEntry.PubKey pk :: StackEntry.Signature sg :: StackEntry.Bytes msg :: rest =>
    if cm.verify pk msg sg then some { s with main_stack := rest } else none
  | _ => none

/-- Pops `n` consecutive `PubKey` entries (helper for `op_checkmultisig`). -/
def popPubKeys : Nat → List StackEntry → Option (List PublicKey × List StackEntry)
  | 0, l => some ([], l)
  | k + 1, StackEntry.PubKey pk :: l =>
    match popPubKeys k l with
    | some (ps, r) => some (pk :: ps, r)
    | none => none
  | _ + 1, _ => none

/-- Pops `m` consecutive `Signature` entries (helper for `op_checkmultisig`). -/
def popSigs : Nat → List StackEntry → Option (List Signature × List StackEntry)
  | 0, l => some ([], l)
  | k + 1, StackEntry.Signature sg :: l =>
    match popSigs k l with
    | some (ss, r) => some (sg :: ss, r)
    | none => none
  | _ + 1, _ => none

/-- Modelled from the spec: the multisig matching of §4.2/§9 — every
signature must validate against a distinct public key, by trial and
discard. -/
def multisigMatch (cm : CryptoModel) (msg : String) :
    List Signature → List PublicKey → Bool
  | [], _ => true
  | sg :: sigs, pks =>
    match pks.find? (fun pk => cm.verify pk msg sg) with
    | some pk => multisigMatch cm msg sigs (pks.erase pk)
    | none => false

/-- Modelled from the spec: `op_checkmultisig` pops `n`, `n` public keys,
`m`, `m` signatures and the message; requires `m ≤ n ≤
MAX_PUB_KEYS_PER_MULTISIG` and pushes `Num(1)` iff every signature validates
against a distinct key. -/
def op_checkmultisig (cm : CryptoModel) (s : Stack) : Option Stack :=
  match s.main_stack with
  | StackEntry.Num n :: rest =>
    if n > MAX_PUB_KEYS_PER_MULTISIG then none
    else
      match popPubKeys n rest with
      | none => none
      | some (pks, rest2) =>
        match rest2 with
        | StackEntry.Num m :: rest3 =>
          if m > n then none
          else
            match popSigs m rest3 with
            | none => none
            | some (sigs, rest4) =>
              match rest4 with
              | StackEntry.Bytes msg :: rest5 =>
                some { s with main_stack :=
                  (if multisigMatch cm msg sigs pks then StackEntry.Num 1
                   else StackEntry.Num 0) :: rest5 }
              | _ => none
        | _ => none
  | _ => none

/-- Modelled from the spec: `op_checkmultisigverify` = `op_checkmultisig`
then `op_verify`. -/
def op_checkmultisigverify (cm : CryptoModel) (s : Stack) : Option Stack :=
  match op_checkmultisig cm s with
  | some s2 => op_verify s2
  | none => none

/-!
The script evaluator (`src/script/lang.rs`, `Script::is_valid` and
`Script::interpret`). The dispatch below reproduces the `match` of
`Script::interpret` arm for arm; opcodes without an arm in the source
(`OP_IF`, `OP_NOTIF`, `OP_ELSE`, `OP_ENDIF`, `OP_CAT`, `OP_SUBSTR`,
`OP_LEFT`, `OP_RIGHT`, `OP_INVERT`, `OP_AND`, `OP_OR`, `OP_XOR`, `OP_2MUL`,
`OP_2DIV`, `OP_MUL`, `OP_DIV`, `OP_MOD`, `OP_LSHIFT`, `OP_RSHIFT`) fall
through to the final `invalid opcode` arm, which aborts the evaluation.
-/

/-- Byte contribution of one entry to the script size, as accumulated by the
loop of `Script::is_valid`. -/
def entryByteLen : StackEntry → Nat
  | StackEntry.Op _ => 1
  | StackEntry.Signature _ => ED25519_SIGNATURE_LEN
  | StackEntry.PubKey _ => ED25519_PUBLIC_KEY_LEN
  | StackEntry.PubKeyHash s => s.length
  | StackEntry.Bytes s => s.length
  | StackEntry.Num _ => NUM_BYTE_LEN

/-- Script length in bytes (the `len` accumulator of `Script::is_valid`). -/
def scriptByteLen (stack : List StackEntry) : Nat :=
  (stack.map entryByteLen).sum

/-- Number of opcodes in a script (the `ops_count` accumulator of
`Script::is_valid`). -/
def scriptOpsCount (stack : List StackEntry) : Nat :=
  (stack.filter (fun e => match e with | StackEntry.Op _ => true | _ => false)).length

/-- `Script::is_valid` — the byte length may not exceed `MAX_SCRIPT_SIZE`
and the opcode count may not exceed `MAX_OPS_PER_SCRIPT`. -/
def Script.is_valid (scr : Script) : Bool :=
  if scriptByteLen scr.stack > MAX_SCRIPT_SIZE then false
  else if scriptOpsCount scr.stack > MAX_OPS_PER_SCRIPT then false
  else true

/-- One iteration of the dispatch loop of `Script::interpret`: either runs
the opcode handler, pushes the data entry, or (final arm of the source
`match`) aborts on an opcode with no arm. `none` plays the role of
`test_for_return = false`, which makes `interpret` return `false` at once. -/
def applyEntry (cm : CryptoModel) (e : StackEntry) (s : Stack) : Option Stack :=
  match e with
  | StackEntry.Op OpCodes.OP_0 => op_0 s
  | StackEntry.Op OpCodes.OP_1 => op_1 s
  | StackEntry.Op OpCodes.OP_2 => op_2 s
  | StackEntry.Op OpCodes.OP_3 => op_3 s
  | StackEntry.Op OpCodes.OP_4 => op_4 s
  | StackEntry.Op OpCodes.OP_5 => op_5 s
  | StackEntry.Op OpCodes.OP_6 => op_6 s
  | StackEntry.Op OpCodes.OP_7 => op_7 s
  | StackEntry.Op OpCodes.OP_8 => op_8 s
  | StackEntry.Op OpCodes.OP_9 => op_9 s
  | StackEntry.Op OpCodes.OP_10 => op_10 s
  | StackEntry.Op OpCodes.OP_11 => op_11 s
  | StackEntry.Op OpCodes.OP_12 => op_12 s
  | StackEntry.Op OpCodes.OP_13 => op_13 s
  | StackEntry.Op OpCodes.OP_14 => op_14 s
  | StackEntry.Op OpCodes.OP_15 => op_15 s
  | StackEntry.Op OpCodes.OP_16 => op_16 s
  | StackEntry.Op OpCodes.OP_NOP => op_nop s
  | StackEntry.Op OpCodes.OP_VERIFY => op_verify s
  | StackEntry.Op OpCodes.OP_RETURN => op_return s
  | StackEntry.Op OpCodes.OP_TOALTSTACK => op_toaltstack s
  | StackEntry.Op OpCodes.OP_FROMALTSTACK => op_fromaltstack s
  | StackEntry.Op OpCodes.OP_2DROP => op_2drop s
  | StackEntry.Op OpCodes.OP_2DUP => op_2dup s
  | StackEntry.Op OpCodes.OP_3DUP => op_3dup s
  | StackEntry.Op OpCodes.OP_2OVER => op_2over s
  | StackEntry.Op OpCodes.OP_2ROT => op_2rot s
  | StackEntry.Op OpCodes.OP_2SWAP => op_2swap s
  | StackEntry.Op OpCodes.OP_IFDUP => op_ifdup s
  | StackEntry.Op OpCodes.OP_DEPTH => op_depth s
  | StackEntry.Op OpCodes.OP_DROP => op_drop s
  | StackEntry.Op OpCodes.OP_DUP => op_dup s
  | StackEntry.Op OpCodes.OP_NIP => op_nip s
  | StackEntry.Op OpCodes.OP_OVER => op_over s
  | StackEntry.Op OpCodes.OP_PICK => op_pick s
  | StackEntry.Op OpCodes.OP_ROLL => op_roll s
  | StackEntry.Op OpCodes.OP_ROT => op_rot s
  | StackEntry.Op OpCodes.OP_SWAP => op_swap s
  | StackEntry.Op OpCodes.OP_TUCK => op_tuck s
  | StackEntry.Op OpCodes.OP_SIZE => op_size s
  | StackEntry.Op OpCodes.OP_EQUAL => op_equal s
  | StackEntry.Op OpCodes.OP_EQUALVERIFY => op_equalverify s
  | StackEntry.Op OpCodes.OP_1ADD => op_1add s
  | StackEntry.Op OpCodes.OP_1SUB => op_1sub s
  | StackEntry.Op OpCodes.OP_NOT => op_not s
  | StackEntry.Op OpCodes.OP_0NOTEQUAL => op_0notequal s
  | StackEntry.Op OpCodes.OP_ADD => op_add s
  | StackEntry.Op OpCodes.OP_SUB => op_sub s
  | StackEntry.Op OpCodes.OP_BOOLAND => op_booland s
  | StackEntry.Op OpCodes.OP_BOOLOR => op_boolor s
  | StackEntry.Op OpCodes.OP_NUMEQUAL => op_numequal s
  | StackEntry.Op OpCodes.OP_NUMEQUALVERIFY => op_numequalverify s
  | StackEntry.Op OpCodes.OP_NUMNOTEQUAL => op_numnotequal s
  | StackEntry.Op OpCodes.OP_LESSTHAN => op_lessthan s
  | StackEntry.Op OpCodes.OP_GREATERTHAN => op_greaterthan s
  | StackEntry.Op OpCodes.OP_LESSTHANOREQUAL => op_lessthanorequal s
  | StackEntry.Op OpCodes.OP_GREATERTHANOREQUAL => op_greaterthanorequal s
  | StackEntry.Op OpCodes.OP_MIN => op_min s
  | StackEntry.Op OpCodes.OP_MAX => op_max s
  | StackEntry.Op OpCodes.OP_WITHIN => op_within s
  | StackEntry.Op OpCodes.OP_CREATE => some s
  | StackEntry.Op OpCodes.OP_SHA3 => op_sha3 cm s
  | StackEntry.Op OpCodes.OP_HASH256 => op_hash256 cm s
  | StackEntry.Op OpCodes.OP_HASH256_V0 => op_hash256_v0 cm s
  | StackEntry.Op OpCodes.OP_HASH256_TEMP => op_hash256_temp cm s
  | StackEntry.Op OpCodes.OP_CHECKSIG => op_checksig cm s
  | StackEntry.Op OpCodes.OP_CHECKSIGVERIFY => op_checksigverify cm s
  | StackEntry.Op OpCodes.OP_CHECKMULTISIG => op_checkmultisig cm s
  | StackEntry.Op OpCodes.OP_CHECKMULTISIGVERIFY => op_checkmultisigverify cm s
  | StackEntry.Signature sg => s.push (StackEntry.Signature sg)
  | StackEntry.PubKey pk => s.push (StackEntry.PubKey pk)
  | StackEntry.PubKeyHash h => s.push (StackEntry.PubKeyHash h)
  | StackEntry.Num n => s.push (StackEntry.Num n)
  | StackEntry.Bytes b => s.push (StackEntry.Bytes b)
  | StackEntry.Op _ => none

/-- The dispatch loop of `Script::interpret`: steps through the entries,
aborting (`none`) when a handler fails or the stack invariant check after
the step fails. -/
def interpretEntries (cm : CryptoModel) : List StackEntry → Stack → Option Stack
  | [], s => some s
  | e :: rest, s =>
    match applyEntry cm e s with
    | none => none
    | some s2 => if s2.is_valid then interpretEntries cm rest s2 else none

/-- The sequence of stack states observed after each step of the loop of
`Script::interpret` that passed the per-step `stack.is_valid()` check. -/
def stepTrace (cm : CryptoModel) : List StackEntry → Stack → List Stack
  | [], _ => []
  | e :: rest, s =>
    match applyEntry cm e s with
    | none => []
    | some s2 => if s2.is_valid then s2 :: stepTrace cm rest s2 else []

/-- `Script::interpret` — checks the structural caps, runs the dispatch loop
on fresh stacks, and accepts iff no step failed and the final top of the
main stack is not `Num(0)` (`stack.last() != Some(Num(ZERO))`). -/
def Script.interpret (cm : CryptoModel) (scr : Script) : Bool :=
  if scr.is_valid then
    match interpretEntries cm scr.stack Stack.new with
    | none => false
    | some st => decide (st.last ≠ some (StackEntry.Num 0))
  else false

/-!
The transaction validator (`src/utils/script_utils.rs`).
-/

/-- Modelled from the spec: `Asset::is_receipt` (the `primitives` module is
not among the sources). -/
def Asset.is_receipt : Asset → Bool
  | Asset.Receipt _ _ _ => true
  | _ => false

/-- Modelled from the spec: `Asset::get_drs_tx_hash`. -/
def Asset.get_drs_tx_hash : Asset → Option String
  | Asset.Receipt _ drs _ => drs
  | _ => none

/-- Modelled from the spec: `Asset::get_metadata`. -/
def Asset.get_metadata : Asset → Option String
  | Asset.Receipt _ _ md => md
  | _ => none

/-- Modelled from the spec: `Asset::with_fixed_hash` binds a `Receipt`'s
`drs_tx_hash` to the referenced outpoint when it is absent (§4.6, step 3);
all other assets are unchanged. -/
def Asset.with_fixed_hash (cm : CryptoModel) (op : OutPoint) : Asset → Asset
  | Asset.Receipt amount none metadata =>
    Asset.Receipt amount (some (cm.fixed_hash op)) metadata
  | a => a

/-- Modelled from the spec: `AssetValues` — the accumulator of §3 tracking
the spent `Token` total and the `drs_tx_hash → receipt_count` map. The Rust
`BTreeMap` is modelled as an association list kept sorted by key, so that
equal maps are equal lists; a key is the optional DRS hash of a receipt. -/
structure AssetValues where
  tokens : Nat
  receipts : List (Option String × Nat)
  deriving DecidableEq, Repr

/-- The empty accumulator (`Default::default()`). -/
def AssetValues.empty : AssetValues := ⟨0, []⟩

/-- Key order of the receipts map: `none` before `some`, strings by the
`Ord String` order (mirrors the deterministic `BTreeMap` iteration). -/
def drsKeyLt (a b : Option String) : Bool :=
  match a, b with
  | none, none => false
  | none, some _ => true
  | some _, none => false
  | some x, some y => compare x y == Ordering.lt

/-- Sorted insertion-with-addition into the receipts map (the
`BTreeMap::entry(..).or_insert(0) += amount` idiom). -/
def addReceiptAmount : List (Option String × Nat) → Option String → Nat →
    List (Option String × Nat)
  | [], k, a => [(k, a)]
  | (k0, v0) :: rest, k, a =>
    if drsKeyLt k k0 then (k, a) :: (k0, v0) :: rest
    else if k = k0 then (k0, v0 + a) :: rest
    else (k0, v0) :: addReceiptAmount rest k a

/-- Modelled from the spec: `AssetValues::update_add` — a `Token` adds to
the token total, a `Receipt` adds to its DRS bucket; the `Data` variant is
explicitly unsupported by the validator (source TODO comment). -/
def AssetValues.update_add (av : AssetValues) : Asset → AssetValues
  | Asset.Token amount => { av with tokens := av.tokens + amount }
  | Asset.Receipt amount drs _ =>
    { av with receipts := addReceiptAmount av.receipts drs amount }
  | Asset.Data _ _ => av

/-- Modelled from the spec: `AssetValues::is_equal` — equality is
component-wise (§3). -/
def AssetValues.is_equal (a b : AssetValues) : Bool :=
  decide (a.tokens = b.tokens) && decide (a.receipts = b.receipts)

/-- `address_has_valid_length` — an address must have exactly 32 or 64
characters. -/
def address_has_valid_length (address : String) : Bool :=
  address.length = 32 || address.length = 64

/-- `tx_has_valid_p2pkh_sig` — the script must match the P2PKH template
exactly (eight entries, any of the three hash-256 variants), the embedded
`Bytes` must equal the outpoint hash, the embedded `PubKeyHash` must equal
the output public key, and the script must interpret successfully. -/
def tx_has_valid_p2pkh_sig (cm : CryptoModel) (script : Script)
    (outpoint_hash tx_out_pub_key : String) : Bool :=
  match script.stack with
  | [StackEntry.Bytes b, StackEntry.Signature _, StackEntry.PubKey _,
     StackEntry.Op OpCodes.OP_DUP, StackEntry.Op hv, StackEntry.PubKeyHash h,
     StackEntry.Op OpCodes.OP_EQUALVERIFY, StackEntry.Op OpCodes.OP_CHECKSIG] =>
    match hv with
    | OpCodes.OP_HASH256 | OpCodes.OP_HASH256_V0 | OpCodes.OP_HASH256_TEMP =>
      decide (h = tx_out_pub_key) && decide (b = outpoint_hash) &&
        Script.interpret cm script
    | _ => false
  | _ => false

/-- `tx_has_valid_p2sh_script` — the P2SH address of the script must equal
the output address and the script must interpret successfully. -/
def tx_has_valid_p2sh_script (cm : CryptoModel) (script : Script)
    (address : String) : Bool :=
  if cm.p2sh_address script = address then Script.interpret cm script
  else false

/-- Outcome of processing the inputs of a transaction: the source can
return `false` (rejection) or panic (`previous_out.as_ref().unwrap()` on a
`None` field). -/
inductive TxCheck (α : Type) where
  | panic
  | reject
  | ok (a : α)
  deriving DecidableEq, Repr

/-- The input loop of `tx_is_valid`: each input must name an existing UTXO
entry carrying an address, its script must pass the P2PKH or the P2SH
predicate, and its (canonicalized) asset is accumulated. A `None`
`previous_out` reproduces the `unwrap` panic of the source. -/
def spendInputs (cm : CryptoModel) (is_in_utxo : OutPoint → Option TxOut) :
    List TxIn → AssetValues → TxCheck AssetValues
  | [], acc => TxCheck.ok acc
  | tx_in :: rest, acc =>
    match tx_in.previous_out with
    | none => TxCheck.panic
    | some tx_out_point =>
      match is_in_utxo tx_out_point with
      | none => TxCheck.reject
      | some tx_out =>
        match tx_out.script_public_key with
        | none => TxCheck.reject
        | some pk =>
          let tx_out_hash := cm.signable_hash tx_out_point
          if !tx_has_valid_p2pkh_sig cm tx_in.script_signature tx_out_hash pk &&
             !tx_has_valid_p2sh_script cm tx_in.script_signature pk then
            TxCheck.reject
          else
            spendInputs cm is_in_utxo rest
              (acc.update_add (tx_out.value.with_fixed_hash cm tx_out_point))

/-- The output loop of `tx_outs_are_valid`: every output address must have a
valid length while the output assets are accumulated; `none` signals the
early `return false` of the source. -/
def sumOuts : List TxOut → AssetValues → Option AssetValues
  | [], acc => some acc
  | tx_out :: rest, acc =>
    match tx_out.script_public_key with
    | some addr =>
      if address_has_valid_length addr then sumOuts rest (acc.update_add tx_out.value)
      else none
    | none => sumOuts rest (acc.update_add tx_out.value)

/-- `tx_outs_are_valid` — accumulates the outputs and requires the result to
equal the accumulated inputs. -/
def tx_outs_are_valid (tx_outs : List TxOut) (tx_ins_spent : AssetValues) : Bool :=
  match sumOuts tx_outs AssetValues.empty with
  | some tx_outs_spent => tx_outs_spent.is_equal tx_ins_spent
  | none => false

/-- `tx_is_valid` — rejects any on-spent `Receipt` output with a missing DRS
or present metadata, then checks every input and the ledger balance.
`none` is the panic of the `unwrap` on a `None` `previous_out`; `some b` is
the boolean verdict of the source. -/
def tx_is_valid (cm : CryptoModel) (tx : Transaction)
    (is_in_utxo : OutPoint → Option TxOut) : Option Bool :=
  if tx.outputs.any (fun out =>
      out.value.is_receipt &&
        (out.value.get_drs_tx_hash.isNone || out.value.get_metadata.isSome)) then
    some false
  else
    match spendInputs cm is_in_utxo tx.inputs AssetValues.empty with
    | TxCheck.panic => none
    | TxCheck.reject => some false
    | TxCheck.ok tx_ins_spent => some (tx_outs_are_valid tx.outputs tx_ins_spent)

/-!
The DDE expectation verifier (`src/utils/druid_utils.rs`). The two Rust
`BTreeSet`s are modelled as the lists of their elements; only membership is
consumed (`BTreeSet::contains`), which coincides with list membership.
-/

/-- The union of the `expectations` of every transaction whose `druid_info`
matches the requested DRUID (the `expects` set of
`druid_expectations_are_met`). -/
def collectExpects (druid : String) (transactions : List Transaction) :
    List DruidExpectation :=
  transactions.flatMap fun tx =>
    match tx.druid_info with
    | some druid_info =>
      if druid_info.druid = druid then druid_info.expectations else []
    | none => []

/-- The realized triples `(from, to, value)` of every matching transaction:
the sender fingerprint is the hex SHA3-256 of the serialized inputs, paired
with each output that carries an address (the `expectation_collect` set). -/
def collectTriples (cm : CryptoModel) (druid : String)
    (transactions : List Transaction) : List (String × String × Asset) :=
  transactions.flatMap fun tx =>
    match tx.druid_info with
    | some druid_info =>
      if druid_info.druid = druid then
        tx.outputs.filterMap fun out =>
          out.script_public_key.map fun pk => (cm.txins_hash tx.inputs, pk, out.value)
      else []
    | none => []

/-- `druid_expectations_are_met` — every collected expectation must be
realized by some matching transaction's output triple. -/
def druid_expectations_are_met (cm : CryptoModel) (druid : String)
    (transactions : List Transaction) : Bool :=
  (collectExpects druid transactions).all fun e =>
    decide ((e.fromAddr, e.toAddr, e.asset) ∈ collectTriples cm druid transactions)

/-- A concrete collaborator model used to evaluate the engine on concrete
inputs (any computable instantiation would do: the theorems below are
parametric in the model). -/
def trivialModel : CryptoModel where
  verify := fun _ _ _ => true
  sha3_hex := fun _ => "h"
  address := fun _ => "a"
  address_v0 := fun _ => "a0"
  address_temp := fun _ => "at"
  p2sh_address := fun _ => "p"
  signable_hash := fun _ => "s"
  fixed_hash := fun op => op.t_hash
  txins_hash := fun _ => "i"


/-!
Helper lemmas.
-/

/-- The per-step stack check accepts exactly the states within the cap. -/
theorem Stack.is_valid_iff_le {s : Stack} :
    s.is_valid = true ↔ s.main_stack.length + s.alt_stack.length ≤ MAX_STACK_SIZE := by
  unfold Stack.is_valid
  split
  · rename_i h
    simp only [Bool.false_eq_true, false_iff]
    omega
  · rename_i h
    simp only [true_iff]
    omega

/-- Every state recorded by the step trace passed the per-step check. -/
theorem stepTrace_bounded (cm : CryptoModel) (entries : List StackEntry) :
    ∀ s₀ st, st ∈ stepTrace cm entries s₀ →
      st.main_stack.length + st.alt_stack.length ≤ MAX_STACK_SIZE := by
  induction entries with
  | nil =>
    intro s₀ st h
    simp [stepTrace] at h
  | cons e rest ih =>
    intro s₀ st h
    rw [stepTrace] at h
    cases ha : applyEntry cm e s₀ with
    | none => rw [ha] at h; simp at h
    | some s2 =>
      rw [ha] at h
      dsimp only at h
      by_cases hv : s2.is_valid = true
      · rw [if_pos hv] at h
        rcases List.mem_cons.mp h with rfl | h2
        · exact Stack.is_valid_iff_le.mp hv
        · exact ih s2 st h2
      · rw [if_neg hv] at h
        simp at h

/-- A state breaching the cap fails the step check and aborts the loop. -/
theorem interpretEntries_aborts (cm : CryptoModel) (e : StackEntry)
    (rest : List StackEntry) (s st2 : Stack) (ha : applyEntry cm e s = some st2)
    (hgt : st2.main_stack.length + st2.alt_stack.length > MAX_STACK_SIZE) :
    interpretEntries cm (e :: rest) s = none := by
  rw [interpretEntries, ha]
  have hv : st2.is_valid ≠ true := by
    intro hv
    exact absurd (Stack.is_valid_iff_le.mp hv) (by omega)
  dsimp only
  rw [if_neg hv]

/-!
Claim theorems.
-/

/-- C1 (counterexample): the script `[OP_1, OP_DROP]` executes successfully,
ends with an EMPTY main stack — its top does not exist — and is not the
empty script, yet `interpret` returns `true`, because the final check
`stack.last() != Some(Num(0))` accepts an absent top. -/
theorem c1_counterexample :
    Script.interpret trivialModel
      ⟨[StackEntry.Op OpCodes.OP_1, StackEntry.Op OpCodes.OP_DROP]⟩ = true ∧
    interpretEntries trivialModel
      [StackEntry.Op OpCodes.OP_1, StackEntry.Op OpCodes.OP_DROP] Stack.new =
      some ⟨[], []⟩ ∧
    (⟨[], []⟩ : Stack).last = none := by
  refine ⟨by decide, by decide, rfl⟩

/-- C1 (amended): `interpret` returns `true` iff the script passes the
structural caps, every step of the dispatch loop succeeds, and at
termination the top of the main stack is not `Num(0)` — where an absent top
(an empty main stack, the empty script included) passes the final check.
In particular `interpret([OP_0]) = false`, `interpret([OP_1]) = true` and
`interpret([]) = true`. -/
theorem c1_interpret_characterization (cm : CryptoModel) (S : Script) :
    (Script.interpret cm S = true ↔
      (S.is_valid = true ∧ ∃ st, interpretEntries cm S.stack Stack.new = some st ∧
        st.last ≠ some (StackEntry.Num 0))) ∧
    Script.interpret cm ⟨[StackEntry.Op OpCodes.OP_0]⟩ = false ∧
    Script.interpret cm ⟨[StackEntry.Op OpCodes.OP_1]⟩ = true ∧
    Script.interpret cm ⟨[]⟩ = true := by
  refine ⟨?_, rfl, rfl, rfl⟩
  unfold Script.interpret
  by_cases hv : S.is_valid = true
  · rw [if_pos hv]
    cases hE : interpretEntries cm S.stack Stack.new with
    | none => simp [hv]
    | some st =>
      simp only [hv, true_and, decide_eq_true_eq]
      constructor
      · intro h
        exact ⟨st, rfl, h⟩
      · rintro ⟨st2, hst2, h2⟩
        rw [Option.some_inj] at hst2
        subst hst2
        exact h2
  · rw [if_neg hv]
    simp [hv]

/-- C2: the conditional opcodes have no arm in the dispatch of
`Script::interpret` and fall through to the invalid-opcode arm, so the
script `[OP_1, OP_IF, OP_2, OP_ELSE, OP_3, OP_ENDIF]` — and its `OP_0`
variant — evaluates to `false` for every collaborator model, although the
repository's own `test_conditionals` asserts both to be `true`. -/
theorem c2_conditionals_rejected (cm : CryptoModel) :
    Script.interpret cm
      ⟨[StackEntry.Op OpCodes.OP_1, StackEntry.Op OpCodes.OP_IF,
        StackEntry.Op OpCodes.OP_2, StackEntry.Op OpCodes.OP_ELSE,
        StackEntry.Op OpCodes.OP_3, StackEntry.Op OpCodes.OP_ENDIF]⟩ = false ∧
    Script.interpret cm
      ⟨[StackEntry.Op OpCodes.OP_0, StackEntry.Op OpCodes.OP_IF,
        StackEntry.Op OpCodes.OP_2, StackEntry.Op OpCodes.OP_ELSE,
        StackEntry.Op OpCodes.OP_3, StackEntry.Op OpCodes.OP_ENDIF]⟩ = false := by
  exact ⟨rfl, rfl⟩

/-- C3: a script whose serialized byte length exceeds `MAX_SCRIPT_SIZE` or
whose opcode count exceeds `MAX_OPS_PER_SCRIPT` fails `Script::is_valid`,
so `interpret` returns `false`. -/
theorem c3_size_caps_reject (cm : CryptoModel) (S : Script)
    (h : scriptByteLen S.stack > MAX_SCRIPT_SIZE ∨
         scriptOpsCount S.stack > MAX_OPS_PER_SCRIPT) :
    Script.interpret cm S = false := by
  have hv : S.is_valid = false := by
    unfold Script.is_valid
    split
    · rfl
    · split
      · rfl
      · rename_i h1 h2
        rcases h with h | h <;> omega
  unfold Script.interpret
  rw [hv]
  simp

set_option maxRecDepth 10000 in
/-- C3 (witness): 202 opcodes exceed the cap of 201, and the script is
rejected. -/
theorem c3_size_caps_reject_witness :
    (scriptByteLen (List.replicate 202 (StackEntry.Op OpCodes.OP_1)) > MAX_SCRIPT_SIZE ∨
     scriptOpsCount (List.replicate 202 (StackEntry.Op OpCodes.OP_1)) > MAX_OPS_PER_SCRIPT) ∧
    Script.interpret trivialModel ⟨List.replicate 202 (StackEntry.Op OpCodes.OP_1)⟩ = false :=
  ⟨Or.inr (by decide),
   c3_size_caps_reject trivialModel ⟨List.replicate 202 (StackEntry.Op OpCodes.OP_1)⟩
     (Or.inr (by decide))⟩

/-- C4: every stack state reached after a passed step check of the dispatch
loop satisfies `|main| + |alt| ≤ MAX_STACK_SIZE`, and whenever a step
produces a state breaching the cap the loop aborts at once (which makes
`interpret` return `false`). -/
theorem c4_stack_limit_invariant :
    (∀ (cm : CryptoModel) (entries : List StackEntry) (s₀ st : Stack),
      st ∈ stepTrace cm entries s₀ →
        st.main_stack.length + st.alt_stack.length ≤ MAX_STACK_SIZE) ∧
    (∀ (cm : CryptoModel) (e : StackEntry) (rest : List StackEntry) (s st2 : Stack),
      applyEntry cm e s = some st2 →
        st2.main_stack.length + st2.alt_stack.length > MAX_STACK_SIZE →
          interpretEntries cm (e :: rest) s = none) :=
  ⟨fun cm entries s₀ st h => stepTrace_bounded cm entries s₀ st h,
   fun cm e rest s st2 ha hgt => interpretEntries_aborts cm e rest s st2 ha hgt⟩

/-- A main stack holding exactly `MAX_STACK_SIZE` entries, used to witness
the abort of the evaluation one push later. -/
def fullMain : List StackEntry := List.replicate MAX_STACK_SIZE (StackEntry.Num 1)

/-- C4 (witness): after `OP_1` on fresh stacks the single recorded state is
within the cap; pushing one entry onto a full stack breaches the cap and the
loop aborts. -/
theorem c4_stack_limit_invariant_witness :
    ((⟨[StackEntry.Num 1], []⟩ : Stack) ∈
        stepTrace trivialModel [StackEntry.Op OpCodes.OP_1] Stack.new ∧
      (⟨[StackEntry.Num 1], []⟩ : Stack).main_stack.length +
        (⟨[StackEntry.Num 1], []⟩ : Stack).alt_stack.length ≤ MAX_STACK_SIZE) ∧
    (applyEntry trivialModel (StackEntry.Num 1) ⟨fullMain, []⟩ =
        some ⟨StackEntry.Num 1 :: fullMain, []⟩ ∧
      (⟨StackEntry.Num 1 :: fullMain, []⟩ : Stack).main_stack.length +
        (⟨StackEntry.Num 1 :: fullMain, []⟩ : Stack).alt_stack.length > MAX_STACK_SIZE ∧
      interpretEntries trivialModel [StackEntry.Num 1] ⟨fullMain, []⟩ = none) :=
  ⟨⟨by decide,
    c4_stack_limit_invariant.1 trivialModel [StackEntry.Op OpCodes.OP_1] Stack.new
      ⟨[StackEntry.Num 1], []⟩ (by decide)⟩,
   ⟨rfl,
    by simp only [fullMain, List.length_cons, List.length_replicate, List.length_nil]; omega,
    c4_stack_limit_invariant.2 trivialModel (StackEntry.Num 1) [] ⟨fullMain, []⟩
      ⟨StackEntry.Num 1 :: fullMain, []⟩ rfl
      (by simp only [fullMain, List.length_cons, List.length_replicate, List.length_nil]; omega)⟩⟩

/-- The P2PKH template shape stated as in the specification: the entry
sequence is exactly `[Bytes, Signature, PubKey, OP_DUP, hash-variant,
PubKeyHash, OP_EQUALVERIFY, OP_CHECKSIG]`, the hash variant is one of the
three `HASH256` opcodes, the `Bytes` slot equals the outpoint hash and the
`PubKeyHash` slot equals the output address. -/
def p2pkhShape (script : Script) (outpoint_hash tx_out_pub_key : String) : Prop :=
  ∃ b sg k hv h,
    script.stack =
      [StackEntry.Bytes b, StackEntry.Signature sg, StackEntry.PubKey k,
       StackEntry.Op OpCodes.OP_DUP, StackEntry.Op hv, StackEntry.PubKeyHash h,
       StackEntry.Op OpCodes.OP_EQUALVERIFY, StackEntry.Op OpCodes.OP_CHECKSIG] ∧
    (hv = OpCodes.OP_HASH256 ∨ hv = OpCodes.OP_HASH256_V0 ∨
      hv = OpCodes.OP_HASH256_TEMP) ∧
    b = outpoint_hash ∧ h = tx_out_pub_key

/-- C5: the P2PKH spend predicate accepts exactly the scripts of the P2PKH
template shape (with nothing after the eighth entry, any of the three hash
variants), whose `Bytes` equals the outpoint hash, whose `PubKeyHash`
equals the output address, and which interpret successfully. -/
theorem c5_p2pkh_characterization (cm : CryptoModel) (script : Script)
    (outpoint_hash tx_out_pub_key : String) :
    tx_has_valid_p2pkh_sig cm script outpoint_hash tx_out_pub_key = true ↔
      (p2pkhShape script outpoint_hash tx_out_pub_key ∧
        Script.interpret cm script = true) := by
  constructor
  · intro hT
    unfold tx_has_valid_p2pkh_sig at hT
    split at hT
    · rename_i b sg k hv h heq
      split at hT
      · simp only [Bool.and_eq_true, decide_eq_true_eq] at hT
        exact ⟨⟨b, sg, k, OpCodes.OP_HASH256, h, heq, Or.inl rfl,
          hT.1.2, hT.1.1⟩, hT.2⟩
      · simp only [Bool.and_eq_true, decide_eq_true_eq] at hT
        exact ⟨⟨b, sg, k, OpCodes.OP_HASH256_V0, h, heq, Or.inr (Or.inl rfl),
          hT.1.2, hT.1.1⟩, hT.2⟩
      · simp only [Bool.and_eq_true, decide_eq_true_eq] at hT
        exact ⟨⟨b, sg, k, OpCodes.OP_HASH256_TEMP, h, heq, Or.inr (Or.inr rfl),
          hT.1.2, hT.1.1⟩, hT.2⟩
      · exact absurd hT (by simp)
    · exact absurd hT (by simp)
  · rintro ⟨⟨b, sg, k, hv, h, hstack, hOr, rfl, rfl⟩, hI⟩
    unfold tx_has_valid_p2pkh_sig
    rw [hstack]
    rcases hOr with rfl | rfl | rfl <;> simp [hI]

/-- C6: whenever `tx_is_valid` returns `true`, the `AssetValues`
accumulated over the inputs' referenced outputs (with their `Receipt` DRS
hashes canonicalized) equal the `AssetValues` accumulated over the
transaction's outputs: the token sums agree and the per-DRS receipt counts
agree. -/
theorem c6_asset_conservation (cm : CryptoModel) (tx : Transaction)
    (is_in_utxo : OutPoint → Option TxOut)
    (h : tx_is_valid cm tx is_in_utxo = some true) :
    ∃ tx_ins_spent,
      spendInputs cm is_in_utxo tx.inputs AssetValues.empty =
        TxCheck.ok tx_ins_spent ∧
      ∃ tx_outs_spent,
        sumOuts tx.outputs AssetValues.empty = some tx_outs_spent ∧
        tx_outs_spent.tokens = tx_ins_spent.tokens ∧
        tx_outs_spent.receipts = tx_ins_spent.receipts := by
  unfold tx_is_valid at h
  split at h
  · simp at h
  · cases hs : spendInputs cm is_in_utxo tx.inputs AssetValues.empty with
    | panic => rw [hs] at h; simp at h
    | reject => rw [hs] at h; simp at h
    | ok tx_ins_spent =>
      rw [hs] at h
      simp only [Option.some_inj] at h
      unfold tx_outs_are_valid at h
      cases ho : sumOuts tx.outputs AssetValues.empty with
      | none => rw [ho] at h; simp at h
      | some tx_outs_spent =>
        rw [ho] at h
        dsimp only at h
        unfold AssetValues.is_equal at h
        simp only [Bool.and_eq_true, decide_eq_true_eq] at h
        exact ⟨tx_ins_spent, rfl, tx_outs_spent, rfl, h.1, h.2⟩

/-- C6 (witness): the empty transaction is valid, so the accumulated input
and output values coincide (both empty). -/
theorem c6_asset_conservation_witness :
    tx_is_valid trivialModel ⟨[], [], none⟩ (fun _ => none) = some true ∧
    (∃ tx_ins_spent,
      spendInputs trivialModel (fun _ => none) ([] : List TxIn) AssetValues.empty =
        TxCheck.ok tx_ins_spent ∧
      ∃ tx_outs_spent,
        sumOuts ([] : List TxOut) AssetValues.empty = some tx_outs_spent ∧
        tx_outs_spent.tokens = tx_ins_spent.tokens ∧
        tx_outs_spent.receipts = tx_ins_spent.receipts) :=
  ⟨by decide, c6_asset_conservation trivialModel ⟨[], [], none⟩ (fun _ => none) (by decide)⟩

/-- C7: `tx_is_valid` is NOT total in the claimed sense — on a transaction
with an input whose `previous_out` is absent it panics (the source unwraps
the `Option`), modelled by the `none` outcome, instead of returning the
boolean `false`; this holds for every collaborator model and UTXO lookup. -/
theorem c7_missing_previous_out_panics (cm : CryptoModel)
    (is_in_utxo : OutPoint → Option TxOut) :
    tx_is_valid cm ⟨[⟨none, ⟨[]⟩⟩], [], none⟩ is_in_utxo = none := by
  rfl

/-- C8: `OP_CAT` has no arm in the dispatch of `Script::interpret` and falls
through to the invalid-opcode arm, so `[Bytes(s1), Bytes(s2), OP_CAT]`
evaluates to `false` — here at the failing inputs `("", "")` and
`("hello", "world")`, both well within `MAX_SCRIPT_ITEM_SIZE` — although
the `op_cat` handler itself exists and is unit-tested by the repository. -/
theorem c8_op_cat_rejected (cm : CryptoModel) :
    Script.interpret cm
      ⟨[StackEntry.Bytes "", StackEntry.Bytes "", StackEntry.Op OpCodes.OP_CAT]⟩ = false ∧
    Script.interpret cm
      ⟨[StackEntry.Bytes "hello", StackEntry.Bytes "world",
        StackEntry.Op OpCodes.OP_CAT]⟩ = false := by
  exact ⟨rfl, rfl⟩

/-- C9: the DDE verifier's verdict only consumes the two collections through
membership, and both are unions over the batch, so the verdict is invariant
under any permutation of the transaction batch. -/
theorem c9_druid_permutation_invariant (cm : CryptoModel) (druid : String)
    (txs1 txs2 : List Transaction) (hp : txs1.Perm txs2) :
    druid_expectations_are_met cm druid txs1 =
      druid_expectations_are_met cm druid txs2 := by
  have hE : (collectExpects druid txs1).Perm (collectExpects druid txs2) :=
    hp.flatMap_right _
  have hC : (collectTriples cm druid txs1).Perm (collectTriples cm druid txs2) :=
    hp.flatMap_right _
  have hbool : ∀ {a b : Bool}, (a = true ↔ b = true) → a = b := by
    intro a b h
    cases a <;> cases b <;> simp_all
  apply hbool
  unfold druid_expectations_are_met
  simp only [List.all_eq_true, decide_eq_true_eq]
  constructor
  · intro h e he
    exact hC.mem_iff.mp (h e (hE.mem_iff.mpr he))
  · intro h e he
    exact hC.mem_iff.mpr (h e (hE.mem_iff.mp he))

/-- A concrete DDE transaction used to witness the permutation invariance. -/
def txAlice : Transaction :=
  ⟨[], [⟨Asset.Token 1, some "alice"⟩],
   some ⟨"druid1", 2, [⟨"i", "alice", Asset.Token 1⟩]⟩⟩

/-- A second concrete DDE transaction for the same DRUID. -/
def txBob : Transaction :=
  ⟨[], [⟨Asset.Token 2, some "bob"⟩], some ⟨"druid1", 2, []⟩⟩

/-- C9 (witness): swapping a concrete two-transaction batch leaves the
verdict unchanged. -/
theorem c9_druid_permutation_invariant_witness :
    List.Perm [txAlice, txBob] [txBob, txAlice] ∧
    druid_expectations_are_met trivialModel "druid1" [txAlice, txBob] =
      druid_expectations_are_met trivialModel "druid1" [txBob, txAlice] :=
  ⟨List.Perm.swap txBob txAlice [],
   c9_druid_permutation_invariant trivialModel "druid1" [txAlice, txBob]
     [txBob, txAlice] (List.Perm.swap txBob txAlice [])⟩

/-- No transaction of the batch matches the DRUID, so no expectation is
collected. -/
theorem collectExpects_eq_nil (druid : String) :
    ∀ txs : List Transaction,
      (∀ tx ∈ txs, ∀ di, tx.druid_info = some di → di.druid ≠ druid) →
        collectExpects druid txs = [] := by
  intro txs
  induction txs with
  | nil => intro _; rfl
  | cons t ts ih =>
    intro h
    unfold collectExpects
    rw [List.flatMap_cons]
    have h1 : (match t.druid_info with
        | some di => if di.druid = druid then di.expectations else []
        | none => []) = [] := by
      cases hdi : t.druid_info with
      | none => rfl
      | some di =>
        dsimp only
        rw [if_neg (h t (List.mem_cons_self t ts) di hdi)]
    rw [h1, List.nil_append]
    exact ih fun tx htx di hdi => h tx (List.mem_cons_of_mem t htx) di hdi

/-- C10: when no transaction of the batch carries `druid_info` matching the
requested DRUID (the empty batch included), no expectation is collected and
`druid_expectations_are_met` returns `true` vacuously. -/
theorem c10_druid_vacuous_true (cm : CryptoModel) (druid : String)
    (txs : List Transaction)
    (h : ∀ tx ∈ txs, ∀ di, tx.druid_info = some di → di.druid ≠ druid) :
    druid_expectations_are_met cm druid txs = true := by
  unfold druid_expectations_are_met
  rw [collectExpects_eq_nil druid txs h]
  rfl

/-- C10 (witness): a batch holding one transaction without `druid_info` is
accepted vacuously. -/
theorem c10_druid_vacuous_true_witness :
    (∀ tx ∈ [(⟨[], [], none⟩ : Transaction)],
      ∀ di, tx.druid_info = some di → di.druid ≠ "druid1") ∧
    druid_expectations_are_met trivialModel "druid1"
      [(⟨[], [], none⟩ : Transaction)] = true :=
  ⟨by simp, c10_druid_vacuous_true trivialModel "druid1" _ (by simp)⟩
